import Mathlib

/-!
Verification development for the `face_detection` repository: a shallow
embedding of its detection/annotation pipeline, camera captors,
configuration singleton and display loop, with theorems about the
behaviours the specification describes.

Real-number values that the program handles as machine floats
(confidences, box coordinates) are modelled by `ℚ`; machine-integer
bit operations are modelled arithmetically (`% 2^w`).
-/

/-- A captured image buffer: rows of BGR pixels.  Produced by the camera
captors and consumed by the displayer; its contents are opaque to all of
the logic modelled here except for the horizontal mirroring done by the
Basler captor. -/
abbrev Frame := List (List (Nat × Nat × Nat))

/-- Python `int(x)` applied to a float: truncation toward zero. -/
def pyInt (q : ℚ) : Int := if 0 ≤ q then ⌊q⌋ else ⌈q⌉

/-- Round a rational to the nearest integer, ties to the even integer:
the rounding mode of Python `round`. -/
def roundHalfEven (q : ℚ) : Int :=
  let f : Int := ⌊q⌋
  if q - f < 1/2 then f
  else if q - f > 1/2 then f + 1
  else if f % 2 = 0 then f else f + 1

/-- Python `round(x, 2)`: the value scaled to hundredths, as an integer. -/
def round2scaled (q : ℚ) : Int := roundHalfEven (q * 100)

/-- Decimal rendering of `n/100` hundredths the way Python `str` prints the
result of `round(x, 2)`: trailing zeros of the fraction are dropped, but at
least one fractional digit is always printed (`str(1.0) = "1.0"`). -/
def fmtHundredths (n : Int) : String :=
  let sign := if n < 0 then "-" else ""
  let m := n.natAbs
  let ip := m / 100
  let fp := m % 100
  if fp = 0 then sign ++ toString ip ++ ".0"
  else if fp % 10 = 0 then sign ++ toString ip ++ "." ++ toString (fp / 10)
  else if fp < 10 then sign ++ toString ip ++ ".0" ++ toString fp
  else sign ++ toString ip ++ "." ++ toString fp

/-- Python `str(round(q, 2))`. -/
def pyStrRound2 (q : ℚ) : String := fmtHundredths (round2scaled q)

/-- One row of `item.boxes.data` as produced by the model: box corners,
confidence (`obj[4]`) and class id (`obj[5]`).  The class id is carried as a
rational because the row is a float vector; the code converts it with
`int(...)` before use. -/
structure RawDet where
  x1 : ℚ
  y1 : ℚ
  x2 : ℚ
  y2 : ℚ
  conf : ℚ
  cls : ℚ
deriving DecidableEq, Repr

/-- One drawing performed by `ImageDisplayer.one_object_display`: a
`cv2.rectangle` between the two corners and a `cv2.putText` of `text` at
`textPos`.  (The fixed colour `(255, 255, 0)`, thickness 2, font and font
scale are constants in the source and are not modelled.) -/
structure DrawCmd where
  rectTL : Int × Int
  rectBR : Int × Int
  text : String
  textPos : Int × Int
deriving DecidableEq, Repr

/-- `ImageDisplayer.one_object_display(array, cur_obj, des)`
(src/frontend/image_displayer.py lines 26-39): draw the rectangle between
`(int(cur_obj[0]), int(cur_obj[1]))` and `(int(cur_obj[2]), int(cur_obj[3]))`
and put `des` at `(int(cur_obj[0]), int(cur_obj[1]))`.  The mutation of the
frame is represented by the returned drawing. -/
def one_object_display (cur_obj : RawDet) (des : String) : DrawCmd :=
  { rectTL := (pyInt cur_obj.x1, pyInt cur_obj.y1)
    rectBR := (pyInt cur_obj.x2, pyInt cur_obj.y2)
    text := des
    textPos := (pyInt cur_obj.x1, pyInt cur_obj.y1) }

/-- The body of the inner loop of `YOLOv8Model.detect_objects` for one row
`obj`: when `obj[4] > current_model_conf` and `str(int(obj[5]))` is a key of
`labels_translator`, annotate the detection; otherwise do nothing. -/
def annotateOne (current_model_conf : ℚ) (labels_translator : List (String × String))
    (obj : RawDet) : Option DrawCmd :=
  if obj.conf > current_model_conf then
    match List.lookup (toString (pyInt obj.cls)) labels_translator with
    | some descr => some (one_object_display obj (descr ++ " " ++ pyStrRound2 obj.conf))
    | none => none
  else none

/-- `YOLOv8Model.detect_objects` (src/backend/object_detection_models.py
lines 122-132).  `details_nn_results` is `model.predict(frame, ...)`: a list
of result items, each carrying the rows of `item.boxes.data`.  The drawings
issued on the frame are returned in the order the two nested `for` loops
issue them. -/
def detect_objects (details_nn_results : List (List RawDet)) (current_model_conf : ℚ)
    (labels_translator : List (String × String)) : List DrawCmd :=
  details_nn_results.flatMap fun item =>
    item.filterMap (annotateOne current_model_conf labels_translator)

/-- The filter of `detect_objects` on one raw detection: confidence strictly
above the threshold and a translator entry for the stringified integer class
id. -/
def keepsDetection (current_model_conf : ℚ) (labels_translator : List (String × String))
    (obj : RawDet) : Bool :=
  decide (obj.conf > current_model_conf) &&
    (List.lookup (toString (pyInt obj.cls)) labels_translator).isSome

/-- The drawing `detect_objects` issues for a detection that passes its
filter. -/
def annotationOf (labels_translator : List (String × String)) (obj : RawDet) : DrawCmd :=
  one_object_display obj
    (((List.lookup (toString (pyInt obj.cls)) labels_translator).getD "")
      ++ " " ++ pyStrRound2 obj.conf)

/-- A physical monitor as enumerated by `screeninfo.get_monitors()`: the
origin of the monitor on the virtual desktop. -/
structure Monitor where
  x : Int
  y : Int
deriving DecidableEq, Repr

/-- One observable effect of `ImageDisplayer.show_frame_on_monitor`: either a
diagnostic `print`, or one of the three window operations it performs. -/
inductive DispAction where
  | diagnostic (msg : String)
  | namedWindow (windowName : String)
  | setWindowProperty (windowName : String)
  | imshow (windowName : String) (frame : Frame)
deriving DecidableEq, Repr

/-- `ImageDisplayer.get_monitors_positions` (src/frontend/image_displayer.py
lines 22-24). -/
def get_monitors_positions (monitors : List Monitor) : List (Int × Int) :=
  monitors.map fun monitor => (monitor.x, monitor.y)

/-- The diagnostic printed for an unknown monitor index. -/
def monitorNotFoundMsg (monitor_number : Int) : String :=
  "Монитор с номером " ++ toString monitor_number ++ " не найден."

/-- The diagnostic printed when `frame is None`. -/
def emptyFrameMsg : String := "Передано пустое изображение"

/-- `ImageDisplayer.show_frame_on_monitor` (src/frontend/image_displayer.py
lines 41-61): out-of-range monitor index or an absent frame yield a
diagnostic and an early return; otherwise the full-screen window is created,
configured and the frame shown in it.  (`x, y` are computed from
`get_monitors_positions` but never used afterwards in the source.) -/
def show_frame_on_monitor (monitors : List Monitor) (frame : Option Frame)
    (monitor_number : Int) : List DispAction :=
  if monitor_number ≥ (monitors.length : Int) ∨ monitor_number < 0 then
    [.diagnostic (monitorNotFoundMsg monitor_number)]
  else
    match frame with
    | none => [.diagnostic emptyFrameMsg]
    | some f =>
      let window_name := "Monitor " ++ toString monitor_number
      [.namedWindow window_name, .setWindowProperty window_name, .imshow window_name f]

/-- The default value of the `monitor_number` parameter of
`show_frame_on_monitor` in the source signature. -/
def monitor_number_default : Int := 1

/-- Exceptions the embedded code can raise. -/
inductive PyError where
  | fileNotFound
  | jsonDecodeError
  | valueError
  | attributeError
  | timeoutException
deriving DecidableEq, Repr

/-- The camera handle held by a `BaslerImageCaptor`: whether the device is
open and whether continuous grabbing is active. -/
structure BaslerCamera where
  isOpen : Bool
  isGrabbing : Bool
deriving DecidableEq, Repr

/-- Outcome of one `camera.RetrieveResult(5000, TimeoutHandling_ThrowException)`
call: the 5000 ms limit expired, or a grab result arrived with
`GrabSucceeded()` false, or a grab result arrived carrying an image. -/
inductive GrabOutcome where
  | timeout
  | grabFailed
  | grabOk (img : Frame)
deriving DecidableEq, Repr

/-- `cv2.flip(img, 1)`: mirror the frame horizontally. -/
def cv2flip (img : Frame) : Frame := img.map List.reverse

namespace BaslerImageCaptor

/-- The ValueError message raised when the configuration file cannot be
applied to camera `i`. -/
def configLoadFailMsg (i : Nat) (path : String) : String :=
  "Не удалось загрузить конфигурацию камеры Basler " ++ toString i ++ " из файла " ++ path

/-- The ValueError message raised for a wrong device count / camera index
combination. -/
def badDeviceCountMsg : String :=
  "Число подключенных камер Basler должно быть равно 1 или 2 (camera_index принимает значения 0 или 1)"

/-- Result of running `BaslerImageCaptor.__init__`: either the constructed
captor state (device index, camera opened and grabbing), or the raised
ValueError together with the device index that was left open when it was
raised (`none` when the constructor raised before opening anything). -/
inductive InitOutcome where
  | ok (deviceIndex : Nat) (camera : BaslerCamera)
  | failed (message : String) (openedDevice : Option Nat)
deriving DecidableEq, Repr

/-- `BaslerImageCaptor.__init__` (src/backend/image_captor.py lines 37-74).
`numDevices` is `len(self.tl_factory.EnumerateDevices())`; `configLoadOk`
tells whether `pylon.FeaturePersistence.Load` succeeds on the opened camera.
On success the camera is open and `StartGrabbing` has been called. -/
def init (numDevices : Nat) (camera_index : Int) (configLoadOk : Bool)
    (path_to_basler_pfs_config_file : String) : InitOutcome :=
  if (numDevices = 1 ∨ numDevices = 2) ∧ camera_index = 0 then
    if configLoadOk then .ok 0 { isOpen := true, isGrabbing := true }
    else .failed (configLoadFailMsg 0 path_to_basler_pfs_config_file) (some 0)
  else if numDevices = 2 ∧ camera_index = 1 then
    if configLoadOk then .ok 1 { isOpen := true, isGrabbing := true }
    else .failed (configLoadFailMsg 1 path_to_basler_pfs_config_file) (some 1)
  else .failed badDeviceCountMsg none

/-- `BaslerImageCaptor.get_frame` (src/backend/image_captor.py lines 76-89).
When the camera is grabbing, `RetrieveResult` is called with
`TimeoutHandling_ThrowException`, so expiry of the 5000 ms limit raises a
pylon timeout exception out of `get_frame`; a result with
`GrabSucceeded()` false yields `(False, None)`, and a successful grab yields
the converted, horizontally flipped image.  When the camera is not grabbing,
`(False, None)` is returned. -/
def get_frame (isGrabbing : Bool) (outcome : GrabOutcome) :
    Except PyError (Bool × Option Frame) :=
  if isGrabbing then
    match outcome with
    | .timeout => .error .timeoutException
    | .grabFailed => .ok (false, none)
    | .grabOk img => .ok (true, some (cv2flip img))
  else .ok (false, none)

/-- `BaslerImageCaptor.release` (src/backend/image_captor.py lines 91-96):
stop grabbing if grabbing, close if open.  Both steps are guarded by the
corresponding query, so the operation is a total state transformation (it
raises nothing). -/
def release (camera : BaslerCamera) : BaslerCamera :=
  let afterStop := if camera.isGrabbing then { camera with isGrabbing := false } else camera
  if afterStop.isOpen then { afterStop with isOpen := false } else afterStop

end BaslerImageCaptor

/-- The `cv2.VideoCapture` handle held by a `WebCamImageCaptor`. -/
structure VideoCapture where
  isOpened : Bool
deriving DecidableEq, Repr

namespace WebCamImageCaptor

/-- `WebCamImageCaptor.release` (src/backend/image_captor.py lines 168-170):
release the capture device only if it is currently opened. -/
def release (vid : VideoCapture) : VideoCapture :=
  if vid.isOpened then { vid with isOpened := false } else vid

end WebCamImageCaptor

/-- A parsed JSON value as returned by `json.load`. -/
inductive Json where
  | null
  | boolean (b : Bool)
  | number (n : Int)
  | str (s : String)
  | arr (elems : List Json)
  | dict (entries : List (String × Json))

/-- `isinstance(config, dict)`: the test performed by
`ConfigLoader.validate_config`. -/
def Json.isDict : Json → Bool
  | .dict _ => true
  | _ => false

/-- What lives at `ConfigLoader.file_path` when the loader opens it:
the file is missing (`open` raises `FileNotFoundError`), its content is not
JSON (`json.load` raises `JSONDecodeError`), or it parses to a JSON value. -/
inductive FileContent where
  | missing
  | malformed
  | json (j : Json)

/-- The state of the `ConfigLoader` singleton instance: the file path fixed
at first construction, the `_is_loaded` flag, and the `config` attribute
(`none` while unassigned). -/
structure ConfigLoader where
  file_path : Option String
  is_loaded : Bool
  config : Option Json

/-- Python truthiness of the `file_path` attribute (`None` and the empty
string are falsy). -/
def pathTruthy : Option String → Bool
  | some s => s ≠ ""
  | none => false

namespace ConfigLoader

/-- `ConfigLoader.__new__` (src/backend/config_loader.py lines 8-12):
return the existing singleton instance if there is one, otherwise create it
with the given file path, `_is_loaded` false and no `config` attribute. -/
def construct (instanceVar : Option ConfigLoader) (file_path : Option String) : ConfigLoader :=
  match instanceVar with
  | some inst => inst
  | none => { file_path := file_path, is_loaded := false, config := none }

/-- `ConfigLoader.load_config` (src/backend/config_loader.py lines 14-28),
run against a file whose content is `fs`.  Returns the raised exception (if
any), the state after the call, and how many times the call read the file
(opened it and consumed its content).  Note that on a non-dict root the
`config` attribute has already been assigned when `validate_config` raises
`ValueError`, but `_is_loaded` is never set. -/
def load_config (fs : FileContent) (c : ConfigLoader) :
    Except PyError Unit × ConfigLoader × Nat :=
  if !c.is_loaded && pathTruthy c.file_path then
    match fs with
    | .missing => (.error .fileNotFound, c, 0)
    | .malformed => (.error .jsonDecodeError, c, 1)
    | .json j =>
      if j.isDict then (.ok (), { c with config := some j, is_loaded := true }, 1)
      else (.error .valueError, { c with config := some j }, 1)
  else (.ok (), c, 0)

/-- The `get_config` property (src/backend/config_loader.py lines 38-45):
lazily call `load_config` when `_is_loaded` is false, then return the
`config` attribute (reading it while unassigned is an `AttributeError`). -/
def get_config (fs : FileContent) (c : ConfigLoader) :
    Except PyError Json × ConfigLoader × Nat :=
  if !c.is_loaded then
    match load_config fs c with
    | (.error e, c1, reads) => (.error e, c1, reads)
    | (.ok _, c1, reads) =>
      match c1.config with
      | some j => (.ok j, c1, reads)
      | none => (.error .attributeError, c1, reads)
  else
    match c.config with
    | some j => (.ok j, c, 0)
    | none => (.error .attributeError, c, 0)

/-- A sequence of `n` accesses to the `get_config` property: the list of
their results, the final state, and the total number of file reads they
performed. -/
def accesses (fs : FileContent) (c : ConfigLoader) :
    Nat → List (Except PyError Json) × ConfigLoader × Nat
  | 0 => ([], c, 0)
  | n + 1 =>
    let step := get_config fs c
    let rest := accesses fs step.2.1 n
    (step.1 :: rest.1, rest.2.1, step.2.2 + rest.2.2)

end ConfigLoader

/-- The two states of the detection loop in `YOLOv8Model.run_model`. -/
inductive LoopState where
  | Running
  | Stopped
deriving DecidableEq, Repr

/-- `ord('q')`. -/
def ord_q : Int := 113

/-- The value `cv2.waitKey(1)` returns, as determined by the key pressed
during the poll: `-1` when no key was pressed, otherwise the pressed key's
code. -/
def waitKeyResult : Option Nat → Int
  | none => -1
  | some code => (code : Int)

/-- `pressed_key & 0xFF == ord('q')`: the quit test of the loop.  Masking an
integer with `0xFF` keeps its low byte, which on two's-complement integers
is the value modulo `2^8`. -/
def quitPressed (key : Option Nat) : Bool :=
  decide (waitKeyResult key % 256 = ord_q)

/-- Everything one iteration of the `while True` loop of
`YOLOv8Model.run_model` does, apart from the FPS printout. -/
structure IterResult where
  drawCmds : List DrawCmd
  dispActions : List DispAction
  destroyedWindows : Bool
  next : LoopState
deriving DecidableEq, Repr

/-- One iteration of the loop of `YOLOv8Model.run_model`
(src/backend/object_detection_models.py lines 137-159) on the executed
`camera_type
= 'usb'` path.  `predict` stands for `model.predict` applied to
the frame object the captor returned; `readResult` is what `captor.get_frame()`
returned; `key` is the key pressed during the `cv2.waitKey(1)` poll.  The
success flag of `readResult` is bound to `ret` in the source and never
consulted; detection and display both receive the frame unconditionally, and
the display call site passes no monitor argument, so the parameter default
`1` applies. -/
def run_model_iter (predict : Option Frame → List (List RawDet))
    (monitors : List Monitor) (translator : List (String × String))
    (cur_model_conf : ℚ) (readResult : Bool × Option Frame) (key : Option Nat) :
    IterResult :=
  let frame := readResult.2
  let drawCmds := detect_objects (predict frame) cur_model_conf translator
  let dispActions := show_frame_on_monitor monitors frame monitor_number_default
  let quit := quitPressed key
  { drawCmds := drawCmds
    dispActions := dispActions
    destroyedWindows := quit
    next := if quit then .Stopped else .Running }

theorem annotateOne_eq_filter_map (current_model_conf : ℚ)
    (labels_translator : List (String × String)) (obj : RawDet) :
    annotateOne current_model_conf labels_translator obj =
      if keepsDetection current_model_conf labels_translator obj then
        some (annotationOf labels_translator obj)
      else none := by
  unfold annotateOne keepsDetection annotationOf
  by_cases h : obj.conf > current_model_conf
  · cases hl : List.lookup (toString (pyInt obj.cls)) labels_translator <;>
      simp [h, hl]
  · simp [h]

theorem filterMap_annotateOne (current_model_conf : ℚ)
    (labels_translator : List (String × String)) (item : List RawDet) :
    item.filterMap (annotateOne current_model_conf labels_translator) =
      (item.filter (keepsDetection current_model_conf labels_translator)).map
        (annotationOf labels_translator) := by
  induction item with
  | nil => rfl
  | cons obj rest ih =>
    rw [List.filterMap_cons, List.filter_cons, annotateOne_eq_filter_map]
    by_cases h : keepsDetection current_model_conf labels_translator obj
    · simp [h, ih]
    · simp [h, ih]

theorem detect_objects_spec (details_nn_results : List (List RawDet))
    (current_model_conf : ℚ) (labels_translator : List (String × String)) :
    detect_objects details_nn_results current_model_conf labels_translator =
      ((details_nn_results.flatten.filter
          (keepsDetection current_model_conf labels_translator)).map
        (annotationOf labels_translator)) := by
  induction details_nn_results with
  | nil => rfl
  | cons item rest ih =>
    rw [List.flatten_cons, List.filter_append, List.map_append, ← ih]
    unfold detect_objects
    rw [List.flatMap_cons, filterMap_annotateOne]

/-- C1: over every frame's raw detection list, `detect_objects` annotates a
detection if and only if its confidence strictly exceeds the configured
threshold and its stringified integer class id has an entry in the label
translator; detections failing either condition are dropped silently, and
each surviving detection is annotated exactly once, in order: the output is
exactly the per-survivor annotation map over the filtered input. -/
theorem detect_objects_annotates_exactly_the_survivors
    (details_nn_results : List (List RawDet)) (current_model_conf : ℚ)
    (labels_translator : List (String × String)) :
    detect_objects details_nn_results current_model_conf labels_translator =
      ((details_nn_results.flatten.filter fun obj =>
          decide (obj.conf > current_model_conf) &&
            (List.lookup (toString (pyInt obj.cls)) labels_translator).isSome).map
        (annotationOf labels_translator)) :=
  detect_objects_spec details_nn_results current_model_conf labels_translator

/-- C2: each surviving detection, in the order the model returned it, is
drawn as its bounding box with corners truncated to integers, together with
a label placed at the truncated top-left corner whose text is the translated
label, a space, and the confidence rounded to 2 decimal places. -/
theorem survivors_drawn_in_order_with_translated_label
    (details_nn_results : List (List RawDet)) (current_model_conf : ℚ)
    (labels_translator : List (String × String)) :
    detect_objects details_nn_results current_model_conf labels_translator =
      ((details_nn_results.flatten.filter
          (keepsDetection current_model_conf labels_translator)).map
        (annotationOf labels_translator)) ∧
    ∀ (obj : RawDet) (descr : String),
      List.lookup (toString (pyInt obj.cls)) labels_translator = some descr →
      annotationOf labels_translator obj =
        { rectTL := (pyInt obj.x1, pyInt obj.y1)
          rectBR := (pyInt obj.x2, pyInt obj.y2)
          text := descr ++ " " ++ pyStrRound2 obj.conf
          textPos := (pyInt obj.x1, pyInt obj.y1) } := by
  refine ⟨detect_objects_spec details_nn_results current_model_conf labels_translator, ?_⟩
  intro obj descr hdescr
  unfold annotationOf one_object_display
  rw [hdescr]
  rfl

/-- C3: an iteration of the `run_model` loop never consults the success flag
returned by the frame read: an iteration whose read failed behaves exactly
like one whose read succeeded with the same frame object, and in particular
a `(False, None)` read still runs detection and display on the absent
frame instead of skipping them. -/
theorem failed_read_iteration_still_detects_and_displays
    (predict : Option Frame → List (List RawDet)) (monitors : List Monitor)
    (translator : List (String × String)) (cur_model_conf : ℚ)
    (ret : Bool) (frame : Option Frame) (key : Option Nat) :
    run_model_iter predict monitors translator cur_model_conf (ret, frame) key =
      run_model_iter predict monitors translator cur_model_conf (true, frame) key ∧
    (run_model_iter predict monitors translator cur_model_conf (false, none) key).drawCmds =
      detect_objects (predict none) cur_model_conf translator ∧
    (run_model_iter predict monitors translator cur_model_conf (false, none) key).dispActions =
      show_frame_on_monitor monitors none monitor_number_default :=
  ⟨rfl, rfl, rfl⟩

/-- C4: contrary to the claim, expiry of the fixed 5000 ms limit inside
`BaslerImageCaptor.get_frame` while grabbing is active does not produce a
`(False, None)` return: `RetrieveResult` is called with
`TimeoutHandling_ThrowException`, so the timeout surfaces as a raised
exception out of `get_frame`. -/
theorem basler_get_frame_timeout_raises :
    BaslerImageCaptor.get_frame true GrabOutcome.timeout =
      Except.error PyError.timeoutException :=
  rfl

/-- C6: on both camera sources, `release` is idempotent, leaves the device
closed (and, for the Basler captor, not grabbing) no matter how often it is
called or in which state the device already is, and never re-opens a closed
device; the embedding as a total state function reflects that every
underlying device call is guarded by the corresponding state query, so no
call path raises. -/
theorem release_idempotent_and_never_reopens
    (camera : BaslerCamera) (vid : VideoCapture) :
    BaslerImageCaptor.release (BaslerImageCaptor.release camera) =
      BaslerImageCaptor.release camera ∧
    (BaslerImageCaptor.release camera).isOpen = false ∧
    (BaslerImageCaptor.release camera).isGrabbing = false ∧
    WebCamImageCaptor.release (WebCamImageCaptor.release vid) =
      WebCamImageCaptor.release vid ∧
    (WebCamImageCaptor.release vid).isOpened = false := by
  obtain ⟨o, g⟩ := camera
  obtain ⟨w⟩ := vid
  cases o <;> cases g <;> cases w <;>
    simp [BaslerImageCaptor.release, WebCamImageCaptor.release]

theorem get_config_cached (fs : FileContent) (p : Option String) (j : Json) :
    ConfigLoader.get_config fs { file_path := p, is_loaded := true, config := some j } =
      (Except.ok j, { file_path := p, is_loaded := true, config := some j }, 0) := by
  rfl

theorem accesses_cached (fs : FileContent) (p : Option String) (j : Json) (n : Nat) :
    ConfigLoader.accesses fs { file_path := p, is_loaded := true, config := some j } n =
      (List.replicate n (Except.ok j),
        { file_path := p, is_loaded := true, config := some j }, 0) := by
  induction n with
  | zero => rfl
  | succ n ih =>
    rw [ConfigLoader.accesses]
    rw [get_config_cached, ih]
    rfl

theorem get_config_first_load (p : String) (hp : p ≠ "") (entries : List (String × Json)) :
    ConfigLoader.get_config (FileContent.json (Json.dict entries))
        (ConfigLoader.construct none (some p)) =
      (Except.ok (Json.dict entries),
        { file_path := some p, is_loaded := true, config := some (Json.dict entries) }, 1) := by
  rw [ConfigLoader.construct, ConfigLoader.get_config, ConfigLoader.load_config]
  simp [pathTruthy, hp, Json.isDict]

/-- C5 (amended): when the first access to the singleton successfully loads
the configuration (path fixed and truthy, file present, valid JSON with a
dict root), the file is read exactly once over any sequence of accesses, and
every access returns the value loaded by the first one without re-reading
the file.  (The unamended universal claim fails when a load raises: the
`_is_loaded` flag is then never set and a later access re-reads the file.) -/
theorem config_read_once_and_cached_after_successful_load
    (p : String) (entries : List (String × Json)) (n : Nat) (hp : p ≠ "") :
    (ConfigLoader.accesses (FileContent.json (Json.dict entries))
        (ConfigLoader.construct none (some p)) n).2.2 = min n 1 ∧
    ∀ r ∈ (ConfigLoader.accesses (FileContent.json (Json.dict entries))
        (ConfigLoader.construct none (some p)) n).1,
      r = Except.ok (Json.dict entries) := by
  cases n with
  | zero => exact ⟨rfl, by intro r hr; cases hr⟩
  | succ n =>
    rw [ConfigLoader.accesses, get_config_first_load p hp entries]
    rw [accesses_cached]
    constructor
    · simp
    · intro r hr
      rcases List.mem_cons.mp hr with h | h
      · exact h
      · exact List.eq_of_mem_replicate h

/-- Witness for the amended C5 theorem at a concrete path, configuration
dictionary and access count. -/
theorem config_read_once_witness :
    (ConfigLoader.accesses (FileContent.json (Json.dict [("stream_from_camera_width", Json.number 1920)]))
        (ConfigLoader.construct none (some "resources/config.json")) 3).2.2 = min 3 1 ∧
    ∀ r ∈ (ConfigLoader.accesses (FileContent.json (Json.dict [("stream_from_camera_width", Json.number 1920)]))
        (ConfigLoader.construct none (some "resources/config.json")) 3).1,
      r = Except.ok (Json.dict [("stream_from_camera_width", Json.number 1920)]) :=
  config_read_once_and_cached_after_successful_load "resources/config.json"
    [("stream_from_camera_width", Json.number 1920)] 3 (by decide)

/-- C5 (counterexample to the claim as stated): with the path fixed to a
truthy value and the file holding valid JSON whose root is a list, the first
access reads the file and raises `ValueError` from `validate_config` without
setting `_is_loaded`, so a second access reads the file again: two accesses
perform two reads, refuting "the underlying file is read at most once". -/
theorem config_file_read_twice_after_failed_validation :
    (ConfigLoader.accesses (FileContent.json (Json.arr []))
        (ConfigLoader.construct none (some "resources/config.json")) 2).2.2 = 2 := by
  rfl

/-- C7: presenting with a monitor index at or beyond the number of
enumerated monitors, or presenting an absent frame, performs no window
operation at all: the call reduces to a single diagnostic message. -/
theorem show_frame_noop_on_bad_index_or_absent_frame
    (monitors : List Monitor) (frame : Option Frame) (monitor_number : Int)
    (h : (monitors.length : Int) ≤ monitor_number ∨ frame = none) :
    ∃ msg, show_frame_on_monitor monitors frame monitor_number =
      [DispAction.diagnostic msg] := by
  unfold show_frame_on_monitor
  rcases h with h | h
  · rw [if_pos (Or.inl h)]
    exact ⟨_, rfl⟩
  · subst h
    by_cases hc : monitor_number ≥ (monitors.length : Int) ∨ monitor_number < 0
    · rw [if_pos hc]
      exact ⟨_, rfl⟩
    · rw [if_neg hc]
      exact ⟨_, rfl⟩

/-- A concrete frame for witnesses. -/
def witnessFrame : Frame := [[(0, 0, 0)]]

/-- Witness for the C7 theorem: one enumerated monitor, a present frame,
and the out-of-range index 1. -/
theorem show_frame_noop_witness :
    ∃ msg, show_frame_on_monitor [{ x := 0, y := 0 }] (some witnessFrame) 1 =
      [DispAction.diagnostic msg] :=
  show_frame_noop_on_bad_index_or_absent_frame [{ x := 0, y := 0 }]
    (some witnessFrame) 1 (Or.inl (by decide))

/-- C8: constructing the Basler captor with a camera index outside the
enumerated devices, or with a device count other than 1 or 2, raises the
descriptive device-count `ValueError` at constructor time, before any
camera device has been opened. -/
theorem basler_init_invalid_selection_fails_without_opening
    (numDevices : Nat) (camera_index : Int) (configLoadOk : Bool) (path : String)
    (h : camera_index < 0 ∨ (numDevices : Int) ≤ camera_index ∨
      (numDevices ≠ 1 ∧ numDevices ≠ 2)) :
    BaslerImageCaptor.init numDevices camera_index configLoadOk path =
      BaslerImageCaptor.InitOutcome.failed BaslerImageCaptor.badDeviceCountMsg none ∧
    BaslerImageCaptor.badDeviceCountMsg ≠ "" := by
  have h1 : ¬ ((numDevices = 1 ∨ numDevices = 2) ∧ camera_index = 0) := by
    rintro ⟨hd, hi⟩
    rcases h with h | h | ⟨h1, h2⟩ <;> rcases hd with hd | hd <;> omega
  have h2 : ¬ (numDevices = 2 ∧ camera_index = 1) := by
    rintro ⟨hd, hi⟩
    rcases h with h | h | ⟨ha, hb⟩ <;> omega
  rw [BaslerImageCaptor.init, if_neg h1, if_neg h2]
  exact ⟨rfl, by decide⟩

/-- Witness for the C8 theorem: index 1 requested while exactly one device
is enumerated. -/
theorem basler_init_invalid_selection_witness :
    BaslerImageCaptor.init 1 1 true "resources/camera.pfs" =
      BaslerImageCaptor.InitOutcome.failed BaslerImageCaptor.badDeviceCountMsg none ∧
    BaslerImageCaptor.badDeviceCountMsg ≠ "" :=
  basler_init_invalid_selection_fails_without_opening 1 1 true "resources/camera.pfs"
    (Or.inr (Or.inl (by decide)))

theorem quitPressed_iff (key : Option Nat) (h : ∀ c ∈ key, c < 256) :
    quitPressed key = true ↔ key = some 113 := by
  cases key with
  | none =>
    constructor
    · intro hq
      exact absurd hq (by decide)
    · intro hq
      cases hq
  | some n =>
    have hn : n < 256 := h n rfl
    have hmod : (n : Int) % 256 = (n : Int) := Int.emod_eq_of_lt (by omega) (by omega)
    constructor
    · intro hq
      have h113 : (n : Int) % 256 = 113 := of_decide_eq_true hq
      have hn113 : n = 113 := by omega
      rw [hn113]
    · rintro hsome
      injection hsome with hn113
      subst hn113
      decide

/-- C9: pressing the key whose code is `ord('q') = 113` is the sole
interactive control: an iteration of the loop transitions `Running → Stopped`
and destroys all display windows when and only when the per-iteration
`cv2.waitKey(1)` poll observed that key; on any other key (or no key) the
loop continues without tearing anything down.  The hypothesis restricts key
codes to the byte range the `& 0xFF` mask is designed for. -/
theorem quit_key_is_sole_loop_control
    (predict : Option Frame → List (List RawDet)) (monitors : List Monitor)
    (translator : List (String × String)) (cur_model_conf : ℚ)
    (readResult : Bool × Option Frame) (key : Option Nat)
    (h : ∀ c ∈ key, c < 256) :
    ((run_model_iter predict monitors translator cur_model_conf readResult key).next =
        LoopState.Stopped ↔ key = some 113) ∧
    ((run_model_iter predict monitors translator cur_model_conf readResult key).destroyedWindows =
        true ↔ key = some 113) ∧
    (key ≠ some 113 →
      (run_model_iter predict monitors translator cur_model_conf readResult key).next =
          LoopState.Running ∧
      (run_model_iter predict monitors translator cur_model_conf readResult key).destroyedWindows =
          false) := by
  have hq := quitPressed_iff key h
  unfold run_model_iter
  by_cases hb : quitPressed key = true
  · have hk := hq.mp hb
    subst hk
    simp [hb]
  · have hne : key ≠ some 113 := fun e => hb (hq.mpr e)
    simp [hb, hne]

/-- Witness for the C9 theorem at the quit key itself. -/
theorem quit_key_witness :
    ((run_model_iter (fun _ => []) [] [] 0 (true, none) (some 113)).next =
        LoopState.Stopped ↔ some 113 = some 113) ∧
    ((run_model_iter (fun _ => []) [] [] 0 (true, none) (some 113)).destroyedWindows =
        true ↔ some 113 = some 113) ∧
    (some 113 ≠ some 113 →
      (run_model_iter (fun _ => []) [] [] 0 (true, none) (some 113)).next =
          LoopState.Running ∧
      (run_model_iter (fun _ => []) [] [] 0 (true, none) (some 113)).destroyedWindows =
          false) :=
  quit_key_is_sole_loop_control (fun _ => []) [] [] 0 (true, none) (some 113)
    (by intro c hc; injection hc with hc2; omega)

/-- C10: the loop's display call passes no monitor argument, so it always
uses the signature default index 1; on a system enumerating exactly one
monitor that call is the out-of-range no-op, so every iteration presents
nothing beyond the diagnostic and no frame is ever displayed. -/
theorem default_monitor_one_never_displays_on_single_monitor
    (predict : Option Frame → List (List RawDet)) (monitors : List Monitor)
    (translator : List (String × String)) (cur_model_conf : ℚ)
    (readResult : Bool × Option Frame) (key : Option Nat)
    (h : monitors.length = 1) :
    (run_model_iter predict monitors translator cur_model_conf readResult key).dispActions =
      show_frame_on_monitor monitors readResult.2 monitor_number_default ∧
    (run_model_iter predict monitors translator cur_model_conf readResult key).dispActions =
      [DispAction.diagnostic (monitorNotFoundMsg 1)] := by
  have hshow : show_frame_on_monitor monitors readResult.2 monitor_number_default =
      [DispAction.diagnostic (monitorNotFoundMsg 1)] := by
    unfold show_frame_on_monitor monitor_number_default
    rw [h, if_pos]
    left
    norm_num
  exact ⟨rfl, hshow⟩

/-- Witness for the C10 theorem: a single enumerated monitor. -/
theorem default_monitor_witness :
    (run_model_iter (fun _ => []) [{ x := 0, y := 0 }] [] 0
        (true, some witnessFrame) none).dispActions =
      show_frame_on_monitor [{ x := 0, y := 0 }] (some witnessFrame) monitor_number_default ∧
    (run_model_iter (fun _ => []) [{ x := 0, y := 0 }] [] 0
        (true, some witnessFrame) none).dispActions =
      [DispAction.diagnostic (monitorNotFoundMsg 1)] :=
  default_monitor_one_never_displays_on_single_monitor (fun _ => []) [{ x := 0, y := 0 }]
    [] 0 (true, some witnessFrame) none rfl

/-- The first raw detection of the specification's end-to-end scenario:
box (10,10)-(50,50), class 0, confidence 0.91. -/
def specDet1 : RawDet :=
  { x1 := 10, y1 := 10, x2 := 50, y2 := 50, conf := 91/100, cls := 0 }

/-- The second raw detection of the specification's end-to-end scenario:
box (5,5)-(20,20), class 7, confidence 0.40. -/
def specDet2 : RawDet :=
  { x1 := 5, y1 := 5, x2 := 20, y2 := 20, conf := 40/100, cls := 7 }

theorem pyStrRound2_091 : pyStrRound2 ((91:ℚ)/100) = "0.91" := by
  unfold pyStrRound2 round2scaled
  have hm : (91:ℚ)/100 * 100 = 91 := by norm_num
  rw [hm]
  have hr : roundHalfEven ((91:ℚ)) = 91 := by
    unfold roundHalfEven
    have hf : ⌊(91:ℚ)⌋ = 91 := by norm_num
    norm_num [hf]
  rw [hr]
  decide

theorem annotateOne_specDet1 :
    annotateOne ((1:ℚ)/2) [("0", "person")] specDet1 =
      some { rectTL := (10, 10), rectBR := (50, 50), text := "person 0.91",
             textPos := (10, 10) } := by
  unfold annotateOne
  rw [if_pos (by norm_num [specDet1])]
  have hcls : toString (pyInt specDet1.cls) = "0" := by decide
  rw [hcls]
  show some (one_object_display specDet1 ("person" ++ " " ++ pyStrRound2 specDet1.conf)) = _
  unfold one_object_display
  have hx1 : pyInt specDet1.x1 = 10 := by decide
  have hy1 : pyInt specDet1.y1 = 10 := by decide
  have hx2 : pyInt specDet1.x2 = 50 := by decide
  have hy2 : pyInt specDet1.y2 = 50 := by decide
  have hconf : pyStrRound2 specDet1.conf = "0.91" := pyStrRound2_091
  rw [hx1, hy1, hx2, hy2, hconf]
  rfl

theorem annotateOne_specDet2 :
    annotateOne ((1:ℚ)/2) [("0", "person")] specDet2 = none := by
  unfold annotateOne
  rw [if_neg (by norm_num [specDet2])]

/-- The specification's end-to-end scenario: raw output
`[(10,10,50,50) class 0 conf 0.91, (5,5,20,20) class 7 conf 0.40]`,
threshold 0.5, label table `0 → person`: exactly one box is drawn, at
(10,10)-(50,50), labeled "person 0.91"; the second detection (under
threshold and with an unknown class) produces no drawing. -/
theorem end_to_end_two_detection_scenario :
    detect_objects [[specDet1, specDet2]] ((1:ℚ)/2) [("0", "person")] =
      [{ rectTL := (10, 10), rectBR := (50, 50), text := "person 0.91",
         textPos := (10, 10) }] := by
  unfold detect_objects
  simp only [List.flatMap_cons, List.flatMap_nil, List.filterMap_cons,
    annotateOne_specDet1, annotateOne_specDet2, List.filterMap_nil, List.append_nil]

/-- Witness for the C2 theorem at the specification's scenario input. -/
theorem survivors_drawn_witness :
    (detect_objects [[specDet1, specDet2]] ((1:ℚ)/2) [("0", "person")] =
      (([[specDet1, specDet2]] : List (List RawDet)).flatten.filter
          (keepsDetection ((1:ℚ)/2) [("0", "person")])).map
        (annotationOf [("0", "person")])) ∧
    annotationOf [("0", "person")] specDet1 =
      { rectTL := (pyInt specDet1.x1, pyInt specDet1.y1)
        rectBR := (pyInt specDet1.x2, pyInt specDet1.y2)
        text := "person" ++ " " ++ pyStrRound2 specDet1.conf
        textPos := (pyInt specDet1.x1, pyInt specDet1.y1) } := by
  have h := survivors_drawn_in_order_with_translated_label [[specDet1, specDet2]]
    ((1:ℚ)/2) [("0", "person")]
  exact ⟨h.1, h.2 specDet1 "person" (by decide)⟩
